import Mathlib

/-!
# librevault: the peer-connection broker `P2PProvider`

A shallow embedding of `src/daemon/p2p/P2PProvider.cpp`.

* Qt value types (`QByteArray`, `QString`, `QUrl`, `QSslConfiguration`) are records and lists.
* Objects the broker only talks to (`PortMapper`, `P2PFolder`, the log) are recorded in a
  `World`: every call the broker makes on them is appended there in program order.
* What the operating system or another component decides (does the bind succeed, which
  group does the folder service know) is a parameter.
-/

namespace librevault

/-! ## Qt value types -/

/-- A byte string: `QByteArray`, a sequence of 8-bit values. -/
abbrev QByteArray := List (Fin 256)

/-- A text string: `QString`, a sequence of characters. -/
abbrev QString := List Char

/-- An unsigned 16-bit integer. -/
abbrev quint16 := Fin 65536

/-- The table `"0123456789abcdef"[value & 0xF]` of `QtMiscUtils::toHexLower`. -/
def toHexLower (value : Nat) : Fin 256 :=
  match value % 16 with
  | 0 => 0x30 | 1 => 0x31 | 2 => 0x32 | 3 => 0x33
  | 4 => 0x34 | 5 => 0x35 | 6 => 0x36 | 7 => 0x37
  | 8 => 0x38 | 9 => 0x39 | 10 => 0x61 | 11 => 0x62
  | 12 => 0x63 | 13 => 0x64 | 14 => 0x65 | _ => 0x66

/-- The digit value of `QtMiscUtils::fromHex`: `'0'..'9'`, `'A'..'F'`, `'a'..'f'`;
`none` stands for the `-1` returned on any other character. -/
def fromHexDigit (c : Fin 256) : Option Nat :=
  if 0x30 ≤ c.val ∧ c.val ≤ 0x39 then some (c.val - 0x30)
  else if 0x41 ≤ c.val ∧ c.val ≤ 0x46 then some (c.val - 0x41 + 10)
  else if 0x61 ≤ c.val ∧ c.val ≤ 0x66 then some (c.val - 0x61 + 10)
  else none

/-- The function `QByteArray::toHex()` without separator: for each byte the two characters
`toHexLower(data[i] >> 4)`, `toHexLower(data[i] & 0xf)`. -/
def toHex : QByteArray → QByteArray
  | [] => []
  | b :: rest => toHexLower (b.val >>> 4) :: toHexLower (b.val &&& 0xf) :: toHex rest

/-- The loop of `QByteArray::fromHex`. The input is walked from its last character to its
first (`revInput` is the input reversed); `result` is the part of the output buffer that is
already written, from the write pointer to the end. A character that is not a hex digit is
skipped; a digit met while `odd_digit` holds opens a new byte (`--result; *result = tmp`),
the next digit completes it (`*result |= tmp << 4`). -/
def fromHexLoop : (revInput : QByteArray) → (odd_digit : Bool) → (result : QByteArray) → QByteArray
  | [], _, result => result
  | ch :: rest, odd_digit, result =>
    match fromHexDigit ch with
    | none => fromHexLoop rest odd_digit result
    | some tmp =>
      if odd_digit then
        fromHexLoop rest false (Fin.ofNat tmp :: result)
      else
        match result with
        | [] => fromHexLoop rest true []
        | r :: result' => fromHexLoop rest true (Fin.ofNat (r.val ||| (tmp <<< 4)) :: result')

/-- The function `QByteArray::fromHex(hexEncoded)`: the loop from the last character with
`odd_digit = true`; the unused front of the buffer is removed. -/
def fromHex (hexEncoded : QByteArray) : QByteArray :=
  fromHexLoop hexEncoded.reverse true []

/-- UTF-8 encoding of one character (one to four bytes). -/
def utf8EncodeChar (c : Char) : QByteArray :=
  let v := c.toNat
  if v ≤ 0x7f then [Fin.ofNat v]
  else if v ≤ 0x7ff then [Fin.ofNat (0xc0 + v / 64), Fin.ofNat (0x80 + v % 64)]
  else if v ≤ 0xffff then
    [Fin.ofNat (0xe0 + v / 4096), Fin.ofNat (0x80 + v / 64 % 64), Fin.ofNat (0x80 + v % 64)]
  else
    [Fin.ofNat (0xf0 + v / 262144), Fin.ofNat (0x80 + v / 4096 % 64),
      Fin.ofNat (0x80 + v / 64 % 64), Fin.ofNat (0x80 + v % 64)]

/-- The function `QString::toUtf8()`. -/
def toUtf8 : QString → QByteArray
  | [] => []
  | c :: rest => utf8EncodeChar c ++ toUtf8 rest

/-- The implicit conversion `QString(const QByteArray&)`, i.e. `QString::fromUtf8`, on the
bytes the broker passes to it: `'/'` and hex digits, all below `0x80`, each of which is the
character with that code. A byte from `0x80` on would start a multi-byte sequence; the
multi-byte decoder is not needed here and such a byte is rendered as U+FFFD. -/
def fromUtf8 : QByteArray → QString
  | [] => []
  | b :: rest => (if b.val < 0x80 then Char.ofNat b.val else Char.ofNat 0xfffd) :: fromUtf8 rest

/-- The function `QString::mid(position)`: the string from `position` to the end. -/
def mid (s : QString) (position : Nat) : QString := s.drop position

/-- A network address; the broker only uses its string form. -/
structure QHostAddress where
  text : QString
deriving DecidableEq, Repr

/-- The function `QHostAddress::toString()`. -/
def QHostAddress.toString (addr : QHostAddress) : QString := addr.text

/-- A `QUrl`, by components. A default-constructed URL is empty and has port `-1`. -/
structure QUrl where
  scheme : QString := []
  host : QString := []
  port : Int := -1
  path : QString := []
deriving DecidableEq, Repr

def QUrl.setScheme (url : QUrl) (scheme : QString) : QUrl := { url with scheme := scheme }
def QUrl.setPath (url : QUrl) (path : QString) : QUrl := { url with path := path }
def QUrl.setHost (url : QUrl) (host : QString) : QUrl := { url with host := host }
def QUrl.setPort (url : QUrl) (port : Int) : QUrl := { url with port := port }

/-- The function `P2PProvider::makeUrl`. -/
def makeUrl (addr : QHostAddress) (port : quint16) (folderid : QByteArray) : QUrl :=
  let url : QUrl := {}
  let url := url.setScheme "wss".toList
  let url := url.setPath (fromUtf8 ((0x2f : Fin 256) :: toHex folderid))
  let url := url.setHost addr.toString
  let url := url.setPort port.val
  url

/-! ## Collaborators of the broker -/

/-- A handle on a folder group (`FolderGroup*`). -/
structure FolderGroup where
  handle : Nat
deriving DecidableEq, Repr

/-- The folder directory. `getGroup` answers `none` where the C++ returns a null pointer. -/
structure FolderService where
  getGroup : QByteArray → Option FolderGroup

structure QSslKey where
  der : QByteArray
deriving DecidableEq, Repr

structure QSslCertificate where
  der : QByteArray
deriving DecidableEq, Repr

/-- The node identity, through the three accessors the broker calls. -/
structure NodeKey where
  privateKey : QSslKey
  certificate : QSslCertificate
  digest : QByteArray
deriving DecidableEq, Repr

/-- The enumeration `QSslSocket::PeerVerifyMode`. -/
inductive PeerVerifyMode where
  | VerifyNone | QueryPeer | VerifyPeer | AutoVerifyPeer
deriving DecidableEq, Repr

/-- The enumeration `QSsl::SslProtocol`. -/
inductive SslProtocol where
  | SslV3 | SslV2 | TlsV1_0 | TlsV1_1 | TlsV1_2 | AnyProtocol | TlsV1SslV3 | SecureProtocols
  | TlsV1_0OrLater | TlsV1_1OrLater | TlsV1_2OrLater | UnknownProtocol
deriving DecidableEq, Repr

/-- A `QSslConfiguration`; the defaults are those of a default-constructed one. -/
structure QSslConfiguration where
  peerVerifyMode : PeerVerifyMode := PeerVerifyMode.AutoVerifyPeer
  privateKey : QSslKey := ⟨[]⟩
  localCertificate : QSslCertificate := ⟨[]⟩
  protocol : SslProtocol := SslProtocol.SecureProtocols
deriving DecidableEq, Repr

def QSslConfiguration.setPeerVerifyMode (c : QSslConfiguration) (mode : PeerVerifyMode) :
    QSslConfiguration := { c with peerVerifyMode := mode }
def QSslConfiguration.setPrivateKey (c : QSslConfiguration) (key : QSslKey) :
    QSslConfiguration := { c with privateKey := key }
def QSslConfiguration.setLocalCertificate (c : QSslConfiguration) (cert : QSslCertificate) :
    QSslConfiguration := { c with localCertificate := cert }
def QSslConfiguration.setProtocol (c : QSslConfiguration) (protocol : SslProtocol) :
    QSslConfiguration := { c with protocol := protocol }

/-- The function `P2PProvider::getSslConfiguration`. -/
def getSslConfiguration (node_key : NodeKey) : QSslConfiguration :=
  let ssl_config : QSslConfiguration := {}
  let ssl_config := ssl_config.setPeerVerifyMode PeerVerifyMode.QueryPeer
  let ssl_config := ssl_config.setPrivateKey node_key.privateKey
  let ssl_config := ssl_config.setLocalCertificate node_key.certificate
  let ssl_config := ssl_config.setProtocol SslProtocol.TlsV1_2OrLater
  ssl_config

/-- An accepted websocket: which connection it is, and the URL the peer requested. -/
structure QWebSocket where
  descriptor : Nat
  requestUrl : QUrl
deriving DecidableEq, Repr

/-- The listener `QWebSocketServer`: its settings, whether it is bound and to which port,
and the queue of accepted connections nobody has fetched yet (oldest first). -/
structure QWebSocketServer where
  serverName : QString
  secure : Bool
  sslConfiguration : QSslConfiguration := {}
  listening : Bool := false
  port : quint16 := 0
  errorString : QString := []
  pending : List QWebSocket := []
deriving DecidableEq, Repr

def QWebSocketServer.setSslConfiguration (s : QWebSocketServer) (c : QSslConfiguration) :
    QWebSocketServer := { s with sslConfiguration := c }

/-- The function `QWebSocketServer::serverPort()`: the bound port, `0` when the server is not listening. -/
def QWebSocketServer.serverPort (s : QWebSocketServer) : quint16 :=
  if s.listening then s.port else 0

/-- What the operating system answers to a bind request on the wildcard address for a port:
the port actually bound, or an error text. -/
abbrev Bind := quint16 → Except QString quint16

/-- The call `QWebSocketServer::listen(QHostAddress::Any, port)`. -/
def QWebSocketServer.listen (s : QWebSocketServer) (bind : Bind) (port : quint16) :
    Bool × QWebSocketServer :=
  match bind port with
  | Except.ok bound => (true, { s with listening := true, port := bound })
  | Except.error e => (false, { s with listening := false, errorString := e })

/-- The function `QWebSocketServer::hasPendingConnections()`. -/
def QWebSocketServer.hasPendingConnections (s : QWebSocketServer) : Bool :=
  !s.pending.isEmpty

/-- The function `QWebSocketServer::nextPendingConnection()`: the oldest pending connection, taken off
the queue; `none` (a null pointer) when there is none. -/
def QWebSocketServer.nextPendingConnection (s : QWebSocketServer) :
    Option QWebSocket × QWebSocketServer :=
  match s.pending with
  | [] => (none, s)
  | socket :: rest => (some socket, { s with pending := rest })

/-- The enumeration `QAbstractSocket::SocketType`. -/
inductive SocketType where
  | TcpSocket | UdpSocket | SctpSocket | UnknownSocketType
deriving DecidableEq, Repr

/-- A call received by the `PortMapper`. -/
inductive PortMapperCall where
  | addPort (id : String) (port : quint16) (protocol : SocketType) (description : String)
  | removePort (id : String)
deriving DecidableEq, Repr

/-- A peer link `P2PFolder`, as far as the broker determines it: the three constructor
arguments, the socket given by `setConnectedSocket` and the URL given by `open`. -/
structure P2PFolder where
  fgroup : Option FolderGroup
  node_key : NodeKey
  parent : Option FolderGroup
  connectedSocket : Option QWebSocket := none
  openedUrl : Option QUrl := none
deriving DecidableEq, Repr

def P2PFolder.setConnectedSocket (f : P2PFolder) (socket : QWebSocket) : P2PFolder :=
  { f with connectedSocket := some socket }
def P2PFolder.open (f : P2PFolder) (url : QUrl) : P2PFolder :=
  { f with openedUrl := some url }

/-- The enumeration `QtMsgType`. -/
inductive QtMsgType where
  | QtDebugMsg | QtInfoMsg | QtWarningMsg | QtCriticalMsg | QtFatalMsg
deriving DecidableEq, Repr

/-- One value streamed into a log line. -/
inductive LogArg where
  | literal (s : String)
  | number (n : Nat)
  | text (s : QString)
deriving DecidableEq, Repr

structure LogEntry where
  level : QtMsgType
  category : String
  args : List LogArg
deriving DecidableEq, Repr

/-- Everything outside the broker that the broker acts upon, each list oldest first: the
calls the `PortMapper` received, the `P2PFolder` objects that exist, the log lines written. -/
structure World where
  port_mapping : List PortMapperCall := []
  folders : List P2PFolder := []
  log : List LogEntry := []
deriving DecidableEq, Repr

def World.addPort (w : World) (id : String) (port : quint16) (protocol : SocketType)
    (description : String) : World :=
  { w with port_mapping := w.port_mapping ++ [PortMapperCall.addPort id port protocol description] }
def World.removePort (w : World) (id : String) : World :=
  { w with port_mapping := w.port_mapping ++ [PortMapperCall.removePort id] }
/-- The effect of `new P2PFolder(..)` followed by calls on the new object, after which the
broker drops its pointer: the object exists in the world. -/
def World.create (w : World) (folder : P2PFolder) : World :=
  { w with folders := w.folders ++ [folder] }
/-- A line written to the logging category `log_p2p`, named `"p2p"`. -/
def World.qCLog (w : World) (level : QtMsgType) (args : List LogArg) : World :=
  { w with log := w.log ++ [⟨level, "p2p", args⟩] }

/-! ## The broker -/

/-- The signals of the listener the broker subscribes to. -/
inductive ServerSignal where
  | newConnection | peerVerifyError | serverError | sslErrors | acceptError
deriving DecidableEq, Repr

/-- The slots of the broker. -/
inductive Slot where
  | handleConnection | handlePeerVerifyError | handleServerError | handleSslErrors
  | handleAcceptError
deriving DecidableEq, Repr

/-- The members of `P2PProvider`. The `PortMapper` behind `port_mapping_` lives in the
`World`; `connections` are the signal connections made on `server_`. -/
structure P2PProvider where
  node_key_ : NodeKey
  folder_service_ : FolderService
  server_ : QWebSocketServer
  connections : List (ServerSignal × Slot) := []

/-- The constructor `P2PProvider::P2PProvider`. `version_string` is `Version().version_string()`,
`p2p_listen` the unsigned value of the configuration entry `"p2p_listen"` (narrowed to 16 bits
when passed to `listen`), `bind` the answer of the operating system. -/
def P2PProvider.create (version_string : QString) (p2p_listen : Nat) (bind : Bind)
    (node_key : NodeKey) (folder_service : FolderService) (w : World) : P2PProvider × World :=
  let server_ : QWebSocketServer := { serverName := version_string, secure := true }
  let server_ := server_.setSslConfiguration (getSslConfiguration node_key)
  let connections :=
    [(ServerSignal.newConnection, Slot.handleConnection),
     (ServerSignal.peerVerifyError, Slot.handlePeerVerifyError),
     (ServerSignal.serverError, Slot.handleServerError),
     (ServerSignal.sslErrors, Slot.handleSslErrors),
     (ServerSignal.acceptError, Slot.handleAcceptError)]
  let (ok, server_) := server_.listen bind (Fin.ofNat p2p_listen)
  let w :=
    if ok then
      w.qCLog QtMsgType.QtInfoMsg
        [LogArg.literal "Librevault is listening on port:", LogArg.number server_.serverPort.val]
    else
      w.qCLog QtMsgType.QtWarningMsg
        [LogArg.literal "Librevault failed to bind on port:", LogArg.number server_.serverPort.val,
         LogArg.literal "E:", LogArg.text server_.errorString]
  let w := w.addPort "main" server_.serverPort SocketType.TcpSocket "Librevault"
  ({ node_key_ := node_key, folder_service_ := folder_service, server_ := server_,
     connections := connections }, w)

/-- The destructor `P2PProvider::~P2PProvider`. -/
def P2PProvider.destroy (_self : P2PProvider) (w : World) : World :=
  w.removePort "main"

/-- The function `P2PProvider::isLoopback`: the answer, and the broker after the call. -/
def P2PProvider.isLoopback (self : P2PProvider) (digest : QByteArray) : Bool × P2PProvider :=
  (decide (self.node_key_.digest = digest), self)

/-- The text of `QUrl::toString()` is not modelled: a log line carries the URL's path. -/
def QUrl.logArg (url : QUrl) : LogArg := LogArg.text url.path

/-- The body of the `while` loop of `P2PProvider::handleConnection`, for the connection
`socket` just taken off the queue. -/
def P2PProvider.handleConnectionBody (self : P2PProvider) (socket : QWebSocket) (w : World) :
    World :=
  let ws_url := socket.requestUrl
  let folderid := fromHex (toUtf8 (mid ws_url.path 1))
  let fgroup := self.folder_service_.getGroup folderid
  let w := w.qCLog QtMsgType.QtDebugMsg
    [LogArg.literal "New incoming connection:", socket.requestUrl.logArg]
  let folder : P2PFolder := { fgroup := fgroup, node_key := self.node_key_, parent := fgroup }
  let folder := folder.setConnectedSocket socket
  w.create folder

set_option linter.unusedVariables false in
/-- The slot `P2PProvider::handleConnection`: while the listener has a pending connection, take the
next one and run the body on it. The branch where `nextPendingConnection` answers a null
pointer although `hasPendingConnections` held cannot be reached; the loop stops there. -/
def P2PProvider.handleConnection (self : P2PProvider) (w : World) : P2PProvider × World :=
  if self.server_.hasPendingConnections then
    match h : self.server_.nextPendingConnection with
    | (some socket, server_) =>
      P2PProvider.handleConnection { self with server_ := server_ }
        (self.handleConnectionBody socket w)
    | (none, _) => (self, w)
  else
    (self, w)
termination_by self.server_.pending.length
decreasing_by
  simp only [QWebSocketServer.nextPendingConnection] at h
  split at h
  · simp at h
  · rename_i sock rest hp
    simp only [Prod.mk.injEq, Option.some.injEq] at h
    rw [← h.2, hp]
    simp

/-- The slot `P2PProvider::handleDiscovered`. -/
def P2PProvider.handleDiscovered (self : P2PProvider) (folderid : QByteArray)
    (addr : QHostAddress) (port : quint16) (w : World) : P2PProvider × World :=
  let w := w.qCLog QtMsgType.QtDebugMsg
    [LogArg.literal "Discovery event about:", LogArg.text addr.toString, LogArg.number port.val]
  match self.folder_service_.getGroup folderid with
  | none => (self, w)
  | some fgroup =>
    let ws_url := makeUrl addr port folderid
    let w := w.qCLog QtMsgType.QtDebugMsg [LogArg.literal "New connection:", ws_url.logArg]
    let folder : P2PFolder :=
      { fgroup := some fgroup, node_key := self.node_key_, parent := some fgroup }
    let folder := folder.open ws_url
    (self, w.create folder)

/-! ## Notions used to state the properties -/

/-- The P2PFolder that the loop body of `handleConnection` makes for `socket`. -/
def P2PProvider.inboundFolder (self : P2PProvider) (socket : QWebSocket) : P2PFolder :=
  { fgroup := self.folder_service_.getGroup (fromHex (toUtf8 (mid socket.requestUrl.path 1))),
    node_key := self.node_key_,
    parent := self.folder_service_.getGroup (fromHex (toUtf8 (mid socket.requestUrl.path 1))),
    connectedSocket := some socket }

/-- A well-formed hex string: an even number of characters, each of them one of
`0-9`, `a-f`, `A-F`. -/
def wellFormedHex (s : QString) : Bool :=
  s.length % 2 == 0 &&
    s.all (fun c => ('0' ≤ c ∧ c ≤ '9') ∨ ('a' ≤ c ∧ c ≤ 'f') ∨ ('A' ≤ c ∧ c ≤ 'F'))

/-- Replays a sequence of `PortMapper` calls made by one broker. `installed` holds the labels
the broker has asked to install and not yet to remove. The answer is whether every
`removePort` names a label that is installed when the call is made. -/
def removalsTargetInstalled : List PortMapperCall → List String → Bool
  | [], _ => true
  | PortMapperCall.addPort id _ _ _ :: rest, installed =>
    removalsTargetInstalled rest (id :: installed)
  | PortMapperCall.removePort id :: rest, installed =>
    decide (id ∈ installed) && removalsTargetInstalled rest (installed.erase id)

/-- The two characters that stand for a byte in lowercase hexadecimal. -/
def hexChars (b : Fin 256) : QString :=
  ["0123456789abcdef".toList.getD (b.val / 16) '0', "0123456789abcdef".toList.getD (b.val % 16) '0']

/-! ## Sample data -/

def sampleKey : NodeKey :=
  { privateKey := ⟨[1, 2, 3]⟩, certificate := ⟨[4, 5, 6]⟩, digest := [0xab, 0xcd] }

def sampleGroup : FolderGroup := ⟨7⟩

/-- A folder service that hosts one folder, with identifier `0a bc`. -/
def sampleService : FolderService :=
  { getGroup := fun folderid => if folderid = [0x0a, 0xbc] then some sampleGroup else none }

/-- An accepted connection that asked for the given path. -/
def sampleSocket (descriptor : Nat) (path : String) : QWebSocket :=
  { descriptor := descriptor,
    requestUrl := { scheme := "wss".toList, host := "10.0.0.2".toList, port := 4242,
                    path := path.toList } }

/-- A broker whose listener holds the given accepted connections. -/
def sampleProvider (pending : List QWebSocket) : P2PProvider :=
  { node_key_ := sampleKey, folder_service_ := sampleService,
    server_ := { serverName := "librevault".toList, secure := true, listening := true,
                 port := 4242, pending := pending } }

/-- An operating system on which every bind is refused. -/
def bindRefused : Bind := fun _ => Except.error "address in use".toList

/-- An operating system that binds the requested port, or port 51413 when asked for port 0. -/
def bindGranted : Bind := fun port => Except.ok (if port = 0 then 51413 else port)

/-! ## Hexadecimal coding of folder identifiers -/

theorem toHexLower_mod (v : Nat) : toHexLower v = toHexLower (v % 16) := by
  simp [toHexLower, Nat.mod_mod]

theorem fromHexDigit_toHexLower_fin : ∀ n : Fin 16, fromHexDigit (toHexLower n.val) = some n.val := by
  decide

theorem fromHexDigit_toHexLower (v : Nat) : fromHexDigit (toHexLower v) = some (v % 16) := by
  rw [toHexLower_mod]
  exact fromHexDigit_toHexLower_fin ⟨v % 16, Nat.mod_lt _ (by decide)⟩

theorem toHexLower_isLowerHex_fin : ∀ n : Fin 16,
    (0x30 ≤ (toHexLower n.val).val ∧ (toHexLower n.val).val ≤ 0x39) ∨
    (0x61 ≤ (toHexLower n.val).val ∧ (toHexLower n.val).val ≤ 0x66) := by
  decide

theorem toHexLower_isLowerHex (v : Nat) :
    (0x30 ≤ (toHexLower v).val ∧ (toHexLower v).val ≤ 0x39) ∨
    (0x61 ≤ (toHexLower v).val ∧ (toHexLower v).val ≤ 0x66) := by
  rw [toHexLower_mod]
  exact toHexLower_isLowerHex_fin ⟨v % 16, Nat.mod_lt _ (by decide)⟩

set_option maxRecDepth 100000 in
theorem byte_of_nibbles : ∀ b : Fin 256,
    (Fin.ofNat (((Fin.ofNat ((b.val &&& 0xf) % 16) : Fin 256).val) ||| (((b.val >>> 4) % 16) <<< 4))
      : Fin 256) = b := by
  decide

theorem fromHexLoop_byte (b : Fin 256) (rest result : QByteArray) :
    fromHexLoop (toHexLower (b.val &&& 0xf) :: toHexLower (b.val >>> 4) :: rest) true result
      = fromHexLoop rest true (b :: result) := by
  simp only [fromHexLoop, fromHexDigit_toHexLower, if_true]
  simp only [Bool.false_eq_true, if_false]
  rw [byte_of_nibbles b]

theorem fromHexLoop_toHex (f : QByteArray) :
    ∀ tail result : QByteArray,
      fromHexLoop ((toHex f).reverse ++ tail) true result = fromHexLoop tail true (f ++ result) := by
  induction f with
  | nil => intro tail result; simp [toHex]
  | cons b rest ih =>
    intro tail result
    have e : (toHex (b :: rest)).reverse ++ tail
        = (toHex rest).reverse ++
            (toHexLower (b.val &&& 0xf) :: toHexLower (b.val >>> 4) :: tail) := by
      simp [toHex]
    rw [e, ih, fromHexLoop_byte]
    simp

theorem fromHex_toHex (f : QByteArray) : fromHex (toHex f) = f := by
  have h := fromHexLoop_toHex f [] []
  simpa [fromHex, fromHexLoop] using h

set_option maxRecDepth 100000 in
theorem utf8_ascii_fin : ∀ b : Fin 128, toUtf8 (fromUtf8 [(Fin.ofNat b.val : Fin 256)])
    = [(Fin.ofNat b.val : Fin 256)] := by
  decide

theorem utf8_ascii (b : Fin 256) (hb : b.val < 0x80) : toUtf8 (fromUtf8 [b]) = [b] := by
  have h := utf8_ascii_fin ⟨b.val, hb⟩
  have e : (Fin.ofNat b.val : Fin 256) = b := by
    apply Fin.ext; simp [Fin.ofNat]
  simpa [e] using h

theorem toUtf8_fromUtf8 (bs : QByteArray) (h : ∀ b ∈ bs, b.val < 0x80) :
    toUtf8 (fromUtf8 bs) = bs := by
  induction bs with
  | nil => rfl
  | cons b rest ih =>
    have hb := utf8_ascii b (h b (List.mem_cons_self _ _))
    have hr := ih (fun x hx => h x (List.mem_cons_of_mem _ hx))
    simp only [fromUtf8, toUtf8, List.append_nil] at hb ⊢
    rw [hb, hr]; rfl

theorem toHex_isLowerHex (f : QByteArray) :
    ∀ c ∈ toHex f, (0x30 ≤ c.val ∧ c.val ≤ 0x39) ∨ (0x61 ≤ c.val ∧ c.val ≤ 0x66) := by
  induction f with
  | nil => intro c hc; simp [toHex] at hc
  | cons b rest ih =>
    intro c hc
    simp only [toHex, List.mem_cons] at hc
    rcases hc with rfl | rfl | hc
    · exact toHexLower_isLowerHex _
    · exact toHexLower_isLowerHex _
    · exact ih c hc

theorem toHex_length (f : QByteArray) : (toHex f).length = 2 * f.length := by
  induction f with
  | nil => rfl
  | cons b rest ih => simp only [toHex, List.length_cons, ih]; omega

theorem toHex_ascii (f : QByteArray) : ∀ c ∈ toHex f, c.val < 0x80 := by
  intro c hc
  rcases toHex_isLowerHex f c hc with h | h <;> omega

/-- The path of the URL made for a folder identifier. -/
theorem makeUrl_path (addr : QHostAddress) (port : quint16) (folderid : QByteArray) :
    (makeUrl addr port folderid).path = '/' :: fromUtf8 (toHex folderid) := by
  simp [makeUrl, QUrl.setPath, QUrl.setScheme, QUrl.setHost, QUrl.setPort, fromUtf8]
  decide

/-- C1: decoding the path of `makeUrl addr port f` the way `handleConnection` decodes a
request path (drop the first character, encode as UTF-8, `fromHex`) gives back `f`, for
every byte string `f`, the empty one included, and every address and port. -/
theorem makeUrl_path_roundtrip (addr : QHostAddress) (port : quint16) (f : QByteArray) :
    fromHex (toUtf8 (mid (makeUrl addr port f).path 1)) = f := by
  rw [makeUrl_path]
  simp only [mid, List.drop_succ_cons, List.drop_zero]
  rw [toUtf8_fromUtf8 _ (toHex_ascii f), fromHex_toHex]

/-! ## Inbound routing -/

theorem handleConnection_loop (l : List QWebSocket) :
    ∀ (self : P2PProvider) (w : World), self.server_.pending = l →
      self.handleConnection w =
        ({ self with server_ := { self.server_ with pending := [] } },
          l.foldl (fun w socket => self.handleConnectionBody socket w) w) := by
  induction l with
  | nil =>
    intro self w h
    rw [P2PProvider.handleConnection]
    obtain ⟨nk, fs, srv, cs⟩ := self
    obtain ⟨a, b, c, d, e, f, g⟩ := srv
    simp only at h
    subst h
    simp [QWebSocketServer.hasPendingConnections]
  | cons socket rest ih =>
    intro self w h
    rw [P2PProvider.handleConnection]
    obtain ⟨nk, fs, srv, cs⟩ := self
    obtain ⟨a, b, c, d, e, f, g⟩ := srv
    simp only at h
    subst h
    simp only [QWebSocketServer.hasPendingConnections, QWebSocketServer.nextPendingConnection,
      List.isEmpty_cons, Bool.not_false, if_true]
    rw [ih _ _ rfl]
    rfl

theorem foldl_body_folders (self : P2PProvider) (l : List QWebSocket) :
    ∀ w : World, (l.foldl (fun w socket => self.handleConnectionBody socket w) w).folders
      = w.folders ++ l.map self.inboundFolder := by
  induction l with
  | nil => intro w; simp
  | cons socket rest ih =>
    intro w
    simp only [List.foldl_cons, ih, List.map_cons]
    simp [P2PProvider.handleConnectionBody, World.create, World.qCLog,
      P2PFolder.setConnectedSocket, P2PProvider.inboundFolder]

theorem handleConnection_folders (self : P2PProvider) (w : World) :
    (self.handleConnection w).2.folders = w.folders ++ self.server_.pending.map self.inboundFolder := by
  rw [handleConnection_loop _ self w rfl, foldl_body_folders]

/-- C5: whatever the number of accepted connections pending when `handleConnection` is
called, it returns; on return the listener has no pending connection left; the world is the
one obtained by running the loop body on each pending connection once, oldest first; and
the sockets adopted by the peer links created during the call are the pending connections,
each once and in queue order. The rest of the broker is untouched. -/
theorem handleConnection_drains (self : P2PProvider) (w : World) :
    (self.handleConnection w).1.server_.pending = [] ∧
    (self.handleConnection w).1.server_.hasPendingConnections = false ∧
    (self.handleConnection w).2
      = self.server_.pending.foldl (fun w socket => self.handleConnectionBody socket w) w ∧
    (∃ created : List P2PFolder,
      (self.handleConnection w).2.folders = w.folders ++ created ∧
      created.length = self.server_.pending.length ∧
      created.map P2PFolder.connectedSocket = self.server_.pending.map some) ∧
    (self.handleConnection w).1.node_key_ = self.node_key_ ∧
    (self.handleConnection w).1.folder_service_ = self.folder_service_ := by
  refine ⟨?_, ?_, ?_, ?_, ?_, ?_⟩
  · rw [handleConnection_loop _ self w rfl]
  · rw [handleConnection_loop _ self w rfl]; rfl
  · rw [handleConnection_loop _ self w rfl]
  · refine ⟨self.server_.pending.map self.inboundFolder, handleConnection_folders self w, ?_, ?_⟩
    · simp
    · simp [P2PProvider.inboundFolder, Function.comp_def]
  · rw [handleConnection_loop _ self w rfl]
  · rw [handleConnection_loop _ self w rfl]

/-- C2, the code at a failing input: one connection is pending and asks for `/00`, a
folder the folder service does not host. `handleConnection` creates a peer link whose
owning group is missing and hands the connection to it. -/
theorem handleConnection_unknown_folder_adopted :
    sampleService.getGroup (fromHex (toUtf8 (mid (sampleSocket 1 "/00").requestUrl.path 1))) = none ∧
    ((sampleProvider [sampleSocket 1 "/00"]).handleConnection {}).2.folders
      = [{ fgroup := none, node_key := sampleKey, parent := none,
           connectedSocket := some (sampleSocket 1 "/00") }] := by
  refine ⟨by decide, ?_⟩
  rw [handleConnection_folders]
  decide

/-- C6 fails: the request path `/abc` has an odd number of hex digits, the folder service
hosts the folder `0a bc`, and `handleConnection` creates a peer link owned by that folder's
group for the connection. -/
theorem handleConnection_malformed_path_routed :
    wellFormedHex (mid (sampleSocket 1 "/abc").requestUrl.path 1) = false ∧
    ((sampleProvider [sampleSocket 1 "/abc"]).handleConnection {}).2.folders
      = [{ fgroup := some sampleGroup, node_key := sampleKey, parent := some sampleGroup,
           connectedSocket := some (sampleSocket 1 "/abc") }] := by
  refine ⟨by decide, ?_⟩
  rw [handleConnection_folders]
  decide

set_option linter.unusedVariables false in
/-- C6, amended: for a pending connection whose request path after the first character is
not well-formed hex, the identifier looked up is what `fromHex` makes of the path
(characters that are not hex digits skipped, digits paired from the end); a peer link
created during the call that has adopted this connection is owned by a group `g` exactly
when the folder service returns `g` for that identifier, and such a link is created when it
does. -/
theorem handleConnection_malformed_path_lookup (self : P2PProvider) (w : World)
    (socket : QWebSocket) (g : FolderGroup)
    (hs : socket ∈ self.server_.pending)
    (hm : wellFormedHex (mid socket.requestUrl.path 1) = false) :
    (∃ created : List P2PFolder,
      (self.handleConnection w).2.folders = w.folders ++ created ∧
      ((∃ folder ∈ created, folder.connectedSocket = some socket ∧ folder.fgroup = some g) ↔
        self.folder_service_.getGroup (fromHex (toUtf8 (mid socket.requestUrl.path 1))) = some g)) := by
  refine ⟨self.server_.pending.map self.inboundFolder, handleConnection_folders self w, ?_⟩
  constructor
  · rintro ⟨folder, hf, hc, hg⟩
    rw [List.mem_map] at hf
    obtain ⟨s, _, rfl⟩ := hf
    simp only [P2PProvider.inboundFolder, Option.some.injEq] at hc hg
    rw [← hc]; exact hg
  · intro hg
    exact ⟨self.inboundFolder socket, List.mem_map_of_mem _ hs,
      by simp [P2PProvider.inboundFolder], by simp [P2PProvider.inboundFolder, hg]⟩

theorem handleConnection_malformed_path_lookup_witness :
    sampleSocket 1 "/abc" ∈ (sampleProvider [sampleSocket 1 "/abc"]).server_.pending ∧
    wellFormedHex (mid (sampleSocket 1 "/abc").requestUrl.path 1) = false ∧
    (∃ created : List P2PFolder,
      ((sampleProvider [sampleSocket 1 "/abc"]).handleConnection {}).2.folders
        = ({} : World).folders ++ created ∧
      ((∃ folder ∈ created, folder.connectedSocket = some (sampleSocket 1 "/abc") ∧
          folder.fgroup = some sampleGroup) ↔
        (sampleProvider [sampleSocket 1 "/abc"]).folder_service_.getGroup
          (fromHex (toUtf8 (mid (sampleSocket 1 "/abc").requestUrl.path 1))) = some sampleGroup)) :=
  ⟨by decide, by decide,
    handleConnection_malformed_path_lookup (sampleProvider [sampleSocket 1 "/abc"]) {}
      (sampleSocket 1 "/abc") sampleGroup (by decide) (by decide)⟩

/-! ## Outbound routing -/

set_option maxRecDepth 100000 in
theorem fromUtf8_toHex_byte : ∀ b : Fin 256,
    fromUtf8 [toHexLower (b.val >>> 4), toHexLower (b.val &&& 0xf)] = hexChars b := by
  decide

theorem fromUtf8_toHex (f : QByteArray) : fromUtf8 (toHex f) = f.flatMap hexChars := by
  induction f with
  | nil => rfl
  | cons b rest ih =>
    have hb := fromUtf8_toHex_byte b
    simp only [fromUtf8, toHex, List.flatMap_cons] at hb ⊢
    rw [ih, ← hb]
    rfl

set_option maxRecDepth 100000 in
theorem hexChars_lower : ∀ b : Fin 256, ∀ c ∈ hexChars b, c ∈ "0123456789abcdef".toList := by
  decide

theorem flatMap_hexChars_length (f : QByteArray) : (f.flatMap hexChars).length = 2 * f.length := by
  induction f with
  | nil => rfl
  | cons b rest ih =>
    simp only [List.flatMap_cons, List.length_append, List.length_cons, ih, hexChars,
      List.length_nil]
    omega

/-- C3: for a discovery tuple whose folder identifier the folder service knows,
`handleDiscovered` creates exactly one peer link; it is owned by the group `getGroup`
returned and is opened (no socket is handed to it) towards the URL with scheme `wss`, host
the string form of the address, the given port, and path `/` followed by the lowercase hex
coding of the identifier: two characters of `0-9a-f` per byte, nothing between them. -/
theorem handleDiscovered_known (self : P2PProvider) (w : World) (f : QByteArray)
    (addr : QHostAddress) (port : quint16) (g : FolderGroup)
    (hg : self.folder_service_.getGroup f = some g) :
    ∃ url : QUrl,
      (self.handleDiscovered f addr port w).2.folders
        = w.folders ++ [{ fgroup := some g, node_key := self.node_key_, parent := some g,
                          connectedSocket := none, openedUrl := some url }] ∧
      url = makeUrl addr port f ∧
      url.scheme = "wss".toList ∧ url.host = addr.toString ∧ url.port = port.val ∧
      url.path = '/' :: f.flatMap hexChars ∧
      (f.flatMap hexChars).length = 2 * f.length ∧
      (∀ c ∈ f.flatMap hexChars, c ∈ "0123456789abcdef".toList) := by
  refine ⟨makeUrl addr port f, ?_, rfl, rfl, rfl, rfl, ?_, ?_, ?_⟩
  · simp [P2PProvider.handleDiscovered, hg, World.create, World.qCLog, P2PFolder.open]
  · rw [makeUrl_path, fromUtf8_toHex]
  · exact flatMap_hexChars_length f
  · intro c hc
    rw [List.mem_flatMap] at hc
    obtain ⟨b, _, hb⟩ := hc
    exact hexChars_lower b c hb

theorem handleDiscovered_known_witness :
    ∃ url : QUrl,
      ((sampleProvider []).handleDiscovered [0x0a, 0xbc] ⟨"10.0.0.9".toList⟩ 4242 {}).2.folders
        = ({} : World).folders ++
            [{ fgroup := some sampleGroup, node_key := (sampleProvider []).node_key_,
               parent := some sampleGroup, connectedSocket := none, openedUrl := some url }] ∧
      url = makeUrl ⟨"10.0.0.9".toList⟩ 4242 [0x0a, 0xbc] ∧
      url.scheme = "wss".toList ∧ url.host = QHostAddress.toString ⟨"10.0.0.9".toList⟩ ∧
      url.port = (4242 : quint16).val ∧
      url.path = '/' :: ([0x0a, 0xbc] : QByteArray).flatMap hexChars ∧
      (([0x0a, 0xbc] : QByteArray).flatMap hexChars).length = 2 * ([0x0a, 0xbc] : QByteArray).length ∧
      (∀ c ∈ ([0x0a, 0xbc] : QByteArray).flatMap hexChars, c ∈ "0123456789abcdef".toList) :=
  handleDiscovered_known (sampleProvider []) {} [0x0a, 0xbc] ⟨"10.0.0.9".toList⟩ 4242 sampleGroup
    (by decide)

/-- C4: for a discovery tuple whose folder identifier the folder service does not know,
`handleDiscovered` creates no peer link and opens no connection (the peer links of the
world are the same as before), calls the port mapper not at all, leaves the broker as it
was, and reports no error: the one line it writes to the log is the debug line on the
discovery event. -/
theorem handleDiscovered_unknown (self : P2PProvider) (w : World) (f : QByteArray)
    (addr : QHostAddress) (port : quint16)
    (hg : self.folder_service_.getGroup f = none) :
    (self.handleDiscovered f addr port w).1 = self ∧
    (self.handleDiscovered f addr port w).2.folders = w.folders ∧
    (self.handleDiscovered f addr port w).2.port_mapping = w.port_mapping ∧
    (∃ line : LogEntry, (self.handleDiscovered f addr port w).2.log = w.log ++ [line] ∧
      line.level = QtMsgType.QtDebugMsg) := by
  refine ⟨?_, ?_, ?_, ?_⟩
  · simp [P2PProvider.handleDiscovered, hg]
  · simp [P2PProvider.handleDiscovered, hg, World.qCLog]
  · simp [P2PProvider.handleDiscovered, hg, World.qCLog]
  · exact ⟨_, by simp [P2PProvider.handleDiscovered, hg, World.qCLog]; rfl, rfl⟩

theorem handleDiscovered_unknown_witness :
    ((sampleProvider []).handleDiscovered [0x00] ⟨"10.0.0.9".toList⟩ 4242 {}).1
      = sampleProvider [] ∧
    ((sampleProvider []).handleDiscovered [0x00] ⟨"10.0.0.9".toList⟩ 4242 {}).2.folders
      = ({} : World).folders ∧
    ((sampleProvider []).handleDiscovered [0x00] ⟨"10.0.0.9".toList⟩ 4242 {}).2.port_mapping
      = ({} : World).port_mapping ∧
    (∃ line : LogEntry,
      ((sampleProvider []).handleDiscovered [0x00] ⟨"10.0.0.9".toList⟩ 4242 {}).2.log
        = ({} : World).log ++ [line] ∧
      line.level = QtMsgType.QtDebugMsg) :=
  handleDiscovered_unknown (sampleProvider []) {} [0x00] ⟨"10.0.0.9".toList⟩ 4242 (by decide)

/-! ## Startup and teardown -/

/-- C7 fails: when the operating system refuses the bind, the constructor still registers
a port mapping, for port 0. -/
theorem create_registers_after_failed_bind :
    ((QWebSocketServer.listen { serverName := "librevault".toList, secure := true } bindRefused
        (Fin.ofNat 42000)).1 = false) ∧
    (P2PProvider.create "librevault".toList 42000 bindRefused sampleKey sampleService {}).2.port_mapping
      = [PortMapperCall.addPort "main" 0 SocketType.TcpSocket "Librevault"] := by
  decide

/-- C7, amended: the constructor makes exactly one call to the port mapper, whether or not
`listen` succeeded: `addPort` with label `main`, the TCP transport, the description
`Librevault` and the value of `serverPort()`, which is the port actually bound when `listen`
succeeded and 0 when it failed. -/
theorem create_registers_once (version_string : QString) (p2p_listen : Nat) (bind : Bind)
    (node_key : NodeKey) (folder_service : FolderService) (w : World) :
    (P2PProvider.create version_string p2p_listen bind node_key folder_service w).2.port_mapping
      = w.port_mapping ++
          [PortMapperCall.addPort "main"
            (match bind (Fin.ofNat p2p_listen) with
              | Except.ok bound => bound
              | Except.error _ => 0)
            SocketType.TcpSocket "Librevault"] ∧
    (P2PProvider.create version_string p2p_listen bind node_key folder_service w).1.server_.listening
      = (match bind (Fin.ofNat p2p_listen) with
          | Except.ok _ => true
          | Except.error _ => false) := by
  unfold P2PProvider.create
  cases hb : bind (Fin.ofNat p2p_listen) <;>
    simp [QWebSocketServer.listen, hb, World.addPort, World.qCLog, QWebSocketServer.serverPort,
      QWebSocketServer.setSslConfiguration]

/-- C8: a broker whose bind failed at startup is torn down. The destructor returns, and the
calls this broker made on the port mapper over its life are `addPort` for `main` at
startup and then one `removePort` for `main`: the removal names a label the broker has
asked to install before and not yet removed. -/
theorem destroy_after_failed_bind (version_string : QString) (p2p_listen : Nat) (bind : Bind)
    (node_key : NodeKey) (folder_service : FolderService) (w : World) (e : QString)
    (hb : bind (Fin.ofNat p2p_listen) = Except.error e) :
    ∃ calls : List PortMapperCall,
      ((P2PProvider.create version_string p2p_listen bind node_key folder_service w).1.destroy
          (P2PProvider.create version_string p2p_listen bind node_key folder_service w).2).port_mapping
        = w.port_mapping ++ calls ∧
      calls = [PortMapperCall.addPort "main" 0 SocketType.TcpSocket "Librevault",
               PortMapperCall.removePort "main"] ∧
      removalsTargetInstalled calls [] = true := by
  refine ⟨_, ?_, rfl, by decide⟩
  unfold P2PProvider.create
  simp [QWebSocketServer.listen, hb, World.addPort, World.qCLog, QWebSocketServer.serverPort,
    QWebSocketServer.setSslConfiguration, P2PProvider.destroy, World.removePort]

theorem destroy_after_failed_bind_witness :
    ∃ calls : List PortMapperCall,
      ((P2PProvider.create "librevault".toList 42000 bindRefused sampleKey sampleService {}).1.destroy
          (P2PProvider.create "librevault".toList 42000 bindRefused sampleKey sampleService {}).2).port_mapping
        = ({} : World).port_mapping ++ calls ∧
      calls = [PortMapperCall.addPort "main" 0 SocketType.TcpSocket "Librevault",
               PortMapperCall.removePort "main"] ∧
      removalsTargetInstalled calls [] = true :=
  destroy_after_failed_bind "librevault".toList 42000 bindRefused sampleKey sampleService {}
    "address in use".toList rfl

/-! ## Identity -/

/-- C9: for every byte string `d`, of any length and content, `isLoopback d` answers true
exactly when `d` equals the digest of this node's key, and the broker after the call is the
broker before it. -/
theorem isLoopback_iff (self : P2PProvider) (d : QByteArray) :
    ((self.isLoopback d).1 = true ↔ d = self.node_key_.digest) ∧ (self.isLoopback d).2 = self := by
  refine ⟨?_, rfl⟩
  simp only [P2PProvider.isLoopback, decide_eq_true_eq]
  exact eq_comm

/-- C10: the TLS configuration made from a node key has that key's private key and
certificate as local credential, the peer verification mode `QueryPeer`, and the protocol
`TlsV1_2OrLater`; nothing else is set, so two node keys with the same private key and
certificate give the same configuration. -/
theorem getSslConfiguration_spec (node_key : NodeKey) :
    (getSslConfiguration node_key).privateKey = node_key.privateKey ∧
    (getSslConfiguration node_key).localCertificate = node_key.certificate ∧
    (getSslConfiguration node_key).peerVerifyMode = PeerVerifyMode.QueryPeer ∧
    (getSslConfiguration node_key).protocol = SslProtocol.TlsV1_2OrLater ∧
    (∀ other : NodeKey, other.privateKey = node_key.privateKey →
      other.certificate = node_key.certificate →
      getSslConfiguration other = getSslConfiguration node_key) := by
  refine ⟨rfl, rfl, rfl, rfl, ?_⟩
  intro other hk hc
  simp [getSslConfiguration, QSslConfiguration.setPeerVerifyMode, QSslConfiguration.setPrivateKey,
    QSslConfiguration.setLocalCertificate, QSslConfiguration.setProtocol, hk, hc]

end librevault
